import Mathlib

/-!
Shallow embedding of the Bayes esports API client
(`esports_cog_utils/bayes/{shared_types,client,async_client,errors}.py`).

Pure logic (tag validation, game normalization, pagination accumulation,
call-executor control flow, session/token state transitions) is translated
into executable Lean definitions.  Network responses, the clock and the
on-disk session file are passed in explicitly as oracles/state, and the
requests a routine issues are returned as an explicit trace, so that the
spec's claims about request behaviour become statements about those traces.
-/

namespace Bayes

/-- `INFINITY` from `shared_types.py`: the page-size sentinel bound. -/
def INFINITY : Nat := 99999

/-- The two reserved sentinel tags (`BaseBayesClient.SPECIAL_TAGS`). -/
def SPECIAL_TAGS : List String := ["NULL", "ALL"]

/-- A decoded `Game` response body.  Each field of the `Game` TypedDict in
`shared_types.py` is `Option`al so that a server payload missing that key can
be represented (`none` = key absent from the decoded dict). -/
structure RawGame where
  platformGameId : Option String := none
  name : Option String := none
  status : Option String := none
  createdAt : Option String := none
  assets : Option (List String) := none
  tags : Option (List String) := none
  blockName : Option String := none
  subBlockName : Option String := none
  teamTriCodes : Option (List String) := none
deriving Repr, DecidableEq

/-- `all(key in game for key in Game.__annotations__)`: every declared field
of the `Game` TypedDict is present in the decoded payload. -/
def hasAllKeys (g : RawGame) : Bool :=
  g.platformGameId.isSome && g.name.isSome && g.status.isSome &&
  g.createdAt.isSome && g.assets.isSome && g.tags.isSome &&
  g.blockName.isSome && g.subBlockName.isSome && g.teamTriCodes.isSome

/-- A flat JSON value, enough to model the decoded bodies the client
inspects. -/
inductive JVal
  | null
  | str (s : String)
  | num (n : Int)
deriving Repr, DecidableEq

/-- A decoded JSON object body: association list of fields. -/
abbrev Body := List (String × JVal)

/-- `key in data` on a decoded dict. -/
def Body.hasKey (b : Body) (k : String) : Bool :=
  (b.map Prod.fst).contains k

/-- The exception taxonomy of `bayes/errors.py`, plus the built-in Python
exceptions the client code can raise (`ValueError`, a plain `KeyError` from a
dict subscript, `json.JSONDecodeError`, and `requests`/`aiohttp` HTTP status
errors).  `BayesUnexpectedResponseException` carries the service name and the
raw payload; two constructors cover its two payload types (a generic decoded
body, and a decoded `Game`). -/
inductive BayesError
  | badRequest (reason : String)
  | badAPIKey
  | rateLimit
  | httpError (status : Nat)
  | unexpectedResponse (service : String) (response : Body)
  | unexpectedResponseGame (service : String) (response : RawGame)
  | valueError (msg : String)
  | keyError (key : String)
  | jsonDecodeError
deriving Repr, DecidableEq

instance {ε α : Type} [DecidableEq ε] [DecidableEq α] : DecidableEq (Except ε α) :=
  fun a b =>
    match a, b with
    | .ok x, .ok y =>
        if h : x = y then .isTrue (by rw [h]) else .isFalse (by simp [h])
    | .error x, .error y =>
        if h : x = y then .isTrue (by rw [h]) else .isFalse (by simp [h])
    | .ok _, .error _ => .isFalse (by simp)
    | .error _, .ok _ => .isFalse (by simp)

/-- The merged tag filter built by `_validate_tags` / `get_all_games`:
`list(tags)` (or `[]` when `tags is None`) with `tag` appended when given. -/
def mergedTags (tag : Option String) (tags : Option (List String)) : List String :=
  (match tags with
   | none => []
   | some ts => ts) ++
  (match tag with
   | none => []
   | some t => [t])

/-- `BaseBayesClient._validate_tags` (`shared_types.py`), also inlined
verbatim at the top of the synchronous `BayesClient.get_all_games`.
Returns the server-side tag filter (`none` = no `tags` parameter sent) and
the `only_null` client-side post-filter flag, or raises `ValueError`. -/
def validate_tags (tag : Option String) (tags : Option (List String)) :
    Except BayesError (Option (List String) × Bool) :=
  let ts := mergedTags tag tags
  if ts = [] ∨ ts = ["ALL"] then
    .ok (none, false)
  else if ts = ["NULL"] then
    .ok (none, true)
  else if ts.contains "NULL" ∨ ts.contains "ALL" then
    .error (.valueError "The special tags NULL and ALL must be requested alone.")
  else
    .ok (some ts, false)

/-- `BaseBayesClient._clean_game`: raise `BayesUnexpectedResponseException`
(`'game'`, the payload) when any declared `Game` field is missing, otherwise
append the `'NULL'` sentinel to an empty tag list. -/
def clean_game (g : RawGame) : Except BayesError RawGame :=
  if hasAllKeys g then
    match g.tags with
    | some [] => .ok { g with tags := some ["NULL"] }
    | _ => .ok g
  else
    .error (.unexpectedResponseGame "game" g)

/-- The outcome of one logical `_do_api_call` invocation, with the observable
side effects of its control flow: how many forced re-logins
(`_ensure_login(force_relogin=True)`) it triggered and how many GET attempts
it issued against the transport. -/
structure CallOutcome where
  result : Except BayesError Body
  relogins : Nat
  attempts : Nat
deriving Repr, DecidableEq

/-- The GET arm of `_do_api_call` (identical in `client.py` and
`async_client.py`, inside one `backoff` attempt).  `resp i` is the transport
status and decoded body for the `i`-th GET attempt of this logical call.
On a 401 with `allow_retry`, the call forces a re-login and retries itself
exactly once with `allow_retry := false`; a 429 raises the rate-limit
exception (caught only by the surrounding backoff decorator); any other
status ≥ 400 raises an HTTP status error (`raise_for_status`); on success
the body is checked for `ensure_keys` and returned unchanged. -/
def do_api_call_get (resp : Nat → Nat × Body) (service : String)
    (ensure_keys : List String) : Bool → Nat → CallOutcome
  | allow_retry, i =>
    if (resp i).1 = 401 ∧ allow_retry then
      let retried := do_api_call_get resp service ensure_keys false (i + 1)
      { retried with relogins := retried.relogins + 1, attempts := retried.attempts + 1 }
    else if (resp i).1 = 429 then
      { result := .error .rateLimit, relogins := 0, attempts := 1 }
    else if 400 ≤ (resp i).1 then
      { result := .error (.httpError (resp i).1), relogins := 0, attempts := 1 }
    else if ensure_keys.all (fun k => (resp i).2.hasKey k) then
      { result := .ok (resp i).2, relogins := 0, attempts := 1 }
    else
      { result := .error (.unexpectedResponse service (resp i).2), relogins := 0, attempts := 1 }
termination_by allow_retry _ => if allow_retry then 1 else 0
decreasing_by simp_all

/-- The POST arm of `_do_api_call`: no bearer token, no 401 retry; after
`raise_for_status`, the same `ensure_keys` presence check. -/
def do_api_call_post (resp : Nat × Body) (service : String)
    (ensure_keys : List String) : Except BayesError Body :=
  let st := resp.1
  let body := resp.2
  if st = 429 then .error .rateLimit
  else if 400 ≤ st then .error (.httpError st)
  else if ensure_keys.all (fun k => body.hasKey k) then .ok body
  else .error (.unexpectedResponse service body)

/-- One decoded `api/v1/games` response as consumed by `get_all_games`:
the reported total `count` and this page's `games`.  (`get_all_games` reads
`data['count']` from the first response only and keeps extending
`data['games']`, so later responses contribute only their game lists.) -/
structure GamesPage where
  count : Nat
  games : List RawGame
deriving Repr, DecidableEq

/-- The query parameters of one `api/v1/games` request issued by
`get_all_games`: the `page` parameter (`none` when omitted, as in the first
request), the `size` parameter, and the serialized tag filter (`none` when
no `tags` parameter is sent). -/
structure GamesQuery where
  page : Option Nat
  size : Nat
  tags : Option (List String)
deriving Repr, DecidableEq

/-- The `while` loop of `get_all_games`: starting from the accumulated
`acc` (the first response's games) and `page = 1`, while the accumulated
length is below the reported `count`, fetch the next page, extend the
accumulator, stop on an empty page, else advance to `page + 1`.  Returns
the final accumulator and the list of page numbers requested. -/
def fetch_pages (fetch : Nat → GamesPage) (count : Nat) (page : Nat)
    (acc : List RawGame) : List RawGame × List Nat :=
  if _h : acc.length < count then
    let np := (fetch page).games
    if np = [] then (acc ++ np, [page])
    else
      let r := fetch_pages fetch count (page + 1) (acc ++ np)
      (r.1, page :: r.2)
  else (acc, [])
termination_by count - acc.length
decreasing_by
  simp only [List.length_append]
  have : 0 < (fetch page).games.length := List.length_pos.mpr (by assumption)
  omega

/-- The final list comprehension of `get_all_games`:
`[self._clean_game(game) for game in data['games'] if not (game['tags'] and only_null)]`.
For each game the filter condition reads `game['tags']` first (a plain
`KeyError` when the key is absent), skips the game when its tag list is
non-empty while `only_null` is set, and otherwise normalizes it through
`_clean_game`. -/
def games_postprocess (only_null : Bool) : List RawGame → Except BayesError (List RawGame)
  | [] => .ok []
  | g :: gs =>
    match g.tags with
    | none => .error (.keyError "tags")
    | some ts =>
      if ts ≠ [] ∧ only_null then games_postprocess only_null gs
      else
        match clean_game g with
        | .error e => .error e
        | .ok c =>
          match games_postprocess only_null gs with
          | .error e => .error e
          | .ok rest => .ok (c :: rest)

/-- `get_all_games` (both clients), after tag validation: issue the first
request with the `page` parameter omitted and `size = INFINITY`; when the
reported count reaches the sentinel bound, run the pagination loop from
page 1; finally run every accumulated game through the filter/normalize
comprehension.  Returns the result and the trace of issued queries. -/
def get_all_games_model (first : GamesPage) (fetch : Nat → GamesPage)
    (tags : Option (List String)) (only_null : Bool) :
    Except BayesError (List RawGame) × List GamesQuery :=
  let r :=
    if INFINITY ≤ first.count then fetch_pages fetch first.count 1 first.games
    else (first.games, [])
  (games_postprocess only_null r.1,
   { page := none, size := INFINITY, tags := tags } ::
     r.2.map (fun p => { page := some p, size := INFINITY, tags := tags }))

/-- A fully-populated decoded game, used as a concrete input. -/
def sampleGame : RawGame :=
  { platformGameId := some "ESPORTSTMNT01:100", name := some "g", status := some "FINISHED",
    createdAt := some "2021-01-01T00:00:00", assets := some ["ROFL_REPLAY"],
    tags := some [], blockName := some "B", subBlockName := some "SB",
    teamTriCodes := some [] }

/-- A decoded game with a non-empty tag list but a missing `name` field,
used as a concrete input. -/
def taggedPartialGame : RawGame := { tags := some ["T"] }

/-- A concrete page oracle: page 1 holds one game, every other page is
empty. -/
def onePageFetch : Nat → GamesPage := fun p =>
  if p = 1 then { count := 0, games := [sampleGame] } else { count := 0, games := [] }

/-- `get_game` (both clients): a 404 from the transport becomes
`BayesBadRequestException('Invalid Game ID: ...')`, any other HTTP error
propagates, and a decoded body goes through `_clean_game`. -/
def get_game_model (resp : Except Nat RawGame) (rpgid : String) :
    Except BayesError RawGame :=
  match resp with
  | .error st =>
    if st = 404 then .error (.badRequest ("Invalid Game ID: " ++ rpgid))
    else .error (.httpError st)
  | .ok g => clean_game g

/-- The mutable session state of a client: access token, refresh token and
expiry.  Timestamps are integers (epoch seconds); `datetime.min` is some
value far in the past. -/
structure SessionState where
  access_token : Option String := none
  refresh_token : Option String := none
  expires : Int
deriving Repr, DecidableEq

/-- The decoded body of a successful login (or asynchronous refresh) POST:
`accessToken`, `refreshToken`, `expiresIn` lifetime seconds. -/
structure TokenTriple where
  accessToken : String
  refreshToken : String
  expiresIn : Int
deriving Repr, DecidableEq

/-- The authentication POSTs `_ensure_login` can issue, with the refresh
token value sent in the refresh body. -/
inductive AuthReq
  | login
  | refresh (refreshToken : Option String)
deriving Repr, DecidableEq

/-- Oracle for the synchronous `_ensure_login`: the outcome of the login
POST and of the refresh POST (`.error status` = HTTP error; the synchronous
refresh requires only `accessToken` and `expiresIn`). -/
structure SyncAuthOracle where
  loginResp : Except Nat TokenTriple
  refreshResp : Except Nat (String × Int)
deriving Repr, DecidableEq

/-- `BayesClient._ensure_login` (`client.py`).  `now` is the clock reading.
On `force_relogin` or a missing access token it performs the login POST
(a 500 becomes `BayesBadAPIKeyException`, other HTTP errors propagate) and
replaces the whole session; otherwise, when the token is expired, it
performs the refresh POST — sending whatever `refresh_token` the session
holds, with no presence check and no exception handler around it — and
replaces only the access token and expiry.  Returns the new session state
and the POSTs issued. -/
def ensure_login_sync (o : SyncAuthOracle) (now : Int) (s : SessionState)
    (force_relogin : Bool) : Except BayesError (SessionState × List AuthReq) :=
  if force_relogin ∨ s.access_token = none then
    match o.loginResp with
    | .error st => if st = 500 then .error .badAPIKey else .error (.httpError st)
    | .ok t =>
      .ok ({ access_token := some t.accessToken, refresh_token := some t.refreshToken,
             expires := now + t.expiresIn }, [.login])
  else if s.expires ≤ now then
    match o.refreshResp with
    | .error st => .error (.httpError st)
    | .ok (a, e) =>
      .ok ({ s with access_token := some a, expires := now + e },
           [.refresh s.refresh_token])
  else .ok (s, [])

/-- The decoded JSON session file of the asynchronous client:
`accessToken`, `refreshToken`, `expiresIn` (an epoch timestamp). -/
structure SavedSession where
  accessToken : String
  refreshToken : Option String
  expiresIn : Int
deriving Repr, DecidableEq

/-- The on-disk state of the save file: `none` = file missing
(`FileNotFoundError` on open), `some none` = file present but not decodable
(`json.loads` raises), `some (some d)` = decodable session data. -/
abbrev SaveFile := Option (Option SavedSession)

/-- The observable events of the asynchronous `_ensure_login`: POSTs issued
and save-file writes (`_save_login`). -/
inductive AEvent
  | login
  | refresh (refreshToken : Option String)
  | save (d : SavedSession)
deriving Repr, DecidableEq

/-- Oracle for the asynchronous `_ensure_login`: login and refresh POST
outcomes (both require `accessToken`, `refreshToken`, `expiresIn`). -/
structure AsyncAuthOracle where
  loginResp : Except Nat TokenTriple
  refreshResp : Except Nat TokenTriple
deriving Repr, DecidableEq

/-- `AsyncBayesClient._ensure_login` together with `_save_login`
(`async_client.py`), with explicit fuel bounding the recursion depth
(each `return await self._ensure_login(...)` consumes one unit; `none`
means the recursion did not finish within the fuel).  The branches mirror
the source: `force_relogin` performs the login POST (500 →
`BayesBadAPIKeyException`) and falls through to the common epilogue (set
tokens from the response data, write the save file); a missing in-memory
access token reads the save file — `FileNotFoundError` recurses with
`force_relogin=True`, an undecodable file propagates the decode error, a
decoded-but-expired session recurses with `force_relogin=False` after
setting `self.expires`, an unexpired one falls through to the epilogue with
the file's data; an expired in-memory token performs the refresh POST,
recursing with `force_relogin=True` when it reports 500; otherwise the
session is left untouched. -/
def ensure_login_async (o : AsyncAuthOracle) (now : Int) (fs : SaveFile) :
    Nat → SessionState → Bool →
      Option (Except BayesError (SessionState × SaveFile × List AEvent))
  | 0, _, _ => none
  | fuel + 1, s, force_relogin =>
    if force_relogin then
      match o.loginResp with
      | .error st =>
        some (if st = 500 then .error .badAPIKey else .error (.httpError st))
      | .ok t =>
        let s' : SessionState :=
          { access_token := some t.accessToken, refresh_token := some t.refreshToken,
            expires := now + t.expiresIn }
        let saved : SavedSession :=
          { accessToken := t.accessToken, refreshToken := some t.refreshToken,
            expiresIn := s'.expires }
        some (.ok (s', some (some saved), [.login, .save saved]))
    else if s.access_token = none then
      match fs with
      | none => ensure_login_async o now fs fuel s true
      | some none => some (.error .jsonDecodeError)
      | some (some d) =>
        if d.expiresIn ≤ now then
          ensure_login_async o now fs fuel { s with expires := d.expiresIn } false
        else
          let s' : SessionState :=
            { access_token := some d.accessToken, refresh_token := d.refreshToken,
              expires := d.expiresIn }
          let saved : SavedSession :=
            { accessToken := d.accessToken, refreshToken := d.refreshToken,
              expiresIn := d.expiresIn }
          some (.ok (s', some (some saved), [.save saved]))
    else if s.expires ≤ now then
      match o.refreshResp with
      | .error st =>
        if st = 500 then
          match ensure_login_async o now fs fuel s true with
          | none => none
          | some (.error e) => some (.error e)
          | some (.ok (s', fs', evs)) =>
            some (.ok (s', fs', .refresh s.refresh_token :: evs))
        else some (.error (.httpError st))
      | .ok t =>
        let s' : SessionState :=
          { s with
            access_token := some t.accessToken,
            refresh_token := some t.refreshToken,
            expires := now + t.expiresIn }
        let saved : SavedSession :=
          { accessToken := t.accessToken, refreshToken := some t.refreshToken,
            expiresIn := s'.expires }
        some (.ok (s', some (some saved), [.refresh s.refresh_token, .save saved]))
    else some (.ok (s, fs, []))

/-- `dict[key]` lookup on a decoded body. -/
def Body.lookup (b : Body) (k : String) : Option JVal :=
  (b.find? (fun kv => kv.1 == k)).map Prod.snd

/-- The service path constants of `Service` (`shared_types.py`), with the
`format` placeholders applied. -/
def Service.GAMES : String := "api/v1/games"

/-- `Service.ASSET.format(rpgid=...)`. -/
def Service.ASSET (rpgid : String) : String := Service.GAMES ++ "/" ++ rpgid ++ "/download"

/-- The requests issued by `get_asset`: the authenticated game fetch, the
authenticated download-URL request (query `type=asset`), and the plain
unauthenticated GET of the signed URL value (issued directly on the session,
not through `_do_api_call`, with no bearer token). -/
inductive AssetReq
  | apiGame (rpgid : String)
  | apiDownload (rpgid : String) (assetType : String)
  | plainGet (url : JVal)
deriving Repr, DecidableEq

/-- Oracle for one `get_asset` run: the decoded game response (or an HTTP
error status), the download-URL response (status and decoded body), and the
raw bytes served by a plain fetch of a URL value. -/
structure AssetOracle where
  gameResp : Except Nat RawGame
  downloadResp : Nat × Body
  fetchBody : JVal → List Nat

/-- `get_asset` (both clients): fetch the game through `get_game`; when the
requested kind is not among the game's declared assets, fail with
`BayesBadRequestException` naming the id and the kind, without issuing the
download request; otherwise request the download URL (required key
`'url'`), then fetch `data['url']` with a plain unauthenticated GET and
return its raw body bytes.  Returns the result and the request trace. -/
def get_asset_model (o : AssetOracle) (rpgid asset : String) :
    Except BayesError (List Nat) × List AssetReq :=
  match get_game_model o.gameResp rpgid with
  | .error e => (.error e, [.apiGame rpgid])
  | .ok game =>
    match game.assets with
    | none => (.error (.keyError "assets"), [.apiGame rpgid])
    | some assets =>
      if asset ∈ assets then
        let st := o.downloadResp.1
        let body := o.downloadResp.2
        if st = 429 then
          (.error .rateLimit, [.apiGame rpgid, .apiDownload rpgid asset])
        else if 400 ≤ st then
          (.error (.httpError st), [.apiGame rpgid, .apiDownload rpgid asset])
        else if body.hasKey "url" then
          match body.lookup "url" with
          | some url =>
            (.ok (o.fetchBody url), [.apiGame rpgid, .apiDownload rpgid asset, .plainGet url])
          | none => (.error (.keyError "url"), [.apiGame rpgid, .apiDownload rpgid asset])
        else
          (.error (.unexpectedResponse (Service.ASSET rpgid) body),
           [.apiGame rpgid, .apiDownload rpgid asset])
      else
        (.error (.badRequest ("Invalid asset type for game with ID " ++ rpgid ++ ": " ++ asset)),
         [.apiGame rpgid])

/-- A concrete oracle for `get_asset`: the game holds one replay asset, the
download endpoint serves a signed URL, and the plain fetch returns four
bytes. -/
def assetOracle : AssetOracle :=
  { gameResp := .ok { sampleGame with tags := some ["t"] },
    downloadResp := (200, [("url", JVal.str "https://signed.example/replay")]),
    fetchBody := fun _ => [82, 79, 70, 76] }

/-- A heap of Python list objects, indexed by object identity. -/
abbrev TagHeap := Nat → List String

/-- Overwrite one list object in the heap. -/
def TagHeap.write (h : TagHeap) (i : Nat) (v : List String) : TagHeap :=
  fun j => if j = i then v else h j

/-- `_validate_tags` at the level of Python list objects, making the
aliasing explicit: `tags = list(tags)` allocates a fresh object (`nextId`)
holding a copy of the caller's list (when a reference was passed),
`tags.append(tag)` mutates only that fresh object, and the returned filter
aliases the fresh object, never the caller's.  Returns the new heap, the
next free id and the result. -/
def validate_tags_heap (h : TagHeap) (nextId : Nat) (tag : Option String)
    (tagsRef : Option Nat) :
    TagHeap × Nat × Except BayesError (Option Nat × Bool) :=
  let initial := match tagsRef with
    | none => []
    | some r => h r
  let h1 := h.write nextId initial
  let h2 := match tag with
    | none => h1
    | some t => h1.write nextId (h1 nextId ++ [t])
  let ts := h2 nextId
  if ts = [] ∨ ts = ["ALL"] then (h2, nextId + 1, .ok (none, false))
  else if ts = ["NULL"] then (h2, nextId + 1, .ok (none, true))
  else if ts.contains "NULL" ∨ ts.contains "ALL" then
    (h2, nextId + 1,
     .error (.valueError "The special tags NULL and ALL must be requested alone."))
  else (h2, nextId + 1, .ok (some nextId, false))

end Bayes

namespace Bayes

/-- Helper: a retried attempt (`allow_retry = false`) never re-logs-in again
and issues exactly one GET, whatever its status. -/
theorem do_api_call_get_noRetry (resp : Nat → Nat × Body) (service : String)
    (ensure_keys : List String) (j : Nat) :
    (do_api_call_get resp service ensure_keys false j).relogins = 0 ∧
    (do_api_call_get resp service ensure_keys false j).attempts = 1 := by
  rw [do_api_call_get, if_neg (by simp)]
  split
  · exact ⟨rfl, rfl⟩
  split
  · exact ⟨rfl, rfl⟩
  split
  · exact ⟨rfl, rfl⟩
  · exact ⟨rfl, rfl⟩

/-- Helper: an attempt whose transport status is below 400 reduces to the
`ensure_keys` presence check on the decoded body. -/
theorem do_api_call_get_success_shape (resp : Nat → Nat × Body) (service : String)
    (ensure_keys : List String) (retry : Bool) (i : Nat) (hok : (resp i).1 < 400) :
    do_api_call_get resp service ensure_keys retry i =
      if ensure_keys.all (fun k => (resp i).2.hasKey k) then
        { result := .ok (resp i).2, relogins := 0, attempts := 1 }
      else
        { result := .error (.unexpectedResponse service (resp i).2),
          relogins := 0, attempts := 1 } := by
  have h401 : ¬ ((resp i).1 = 401 ∧ retry = true) := by
    rintro ⟨h, -⟩; omega
  have h429 : ¬ ((resp i).1 = 429) := by omega
  have h400 : ¬ (400 ≤ (resp i).1) := by omega
  rw [do_api_call_get, if_neg h401, if_neg h429, if_neg h400]

/-- Helper: the pages requested by the pagination loop are consecutive,
starting at the given page number. -/
theorem fetch_pages_range (fetch : Nat → GamesPage) (count page : Nat)
    (acc : List RawGame) :
    (fetch_pages fetch count page acc).2 =
      List.range' page (fetch_pages fetch count page acc).2.length := by
  induction page, acc using fetch_pages.induct fetch count with
  | case1 page acc h np hnp =>
      rw [fetch_pages, dif_pos h]
      simp only [if_pos hnp]
      rfl
  | case2 page acc h np hnp ih =>
      rw [fetch_pages, dif_pos h]
      simp only [if_neg hnp]
      simp only [List.length_cons, List.range'_succ, List.cons.injEq, true_and]
      exact ih
  | case3 page acc h =>
      rw [fetch_pages, dif_neg h]
      rfl

/-- Helper: the loop extends the accumulator with exactly the games of each
requested page, in order. -/
theorem fetch_pages_acc (fetch : Nat → GamesPage) (count page : Nat)
    (acc : List RawGame) :
    (fetch_pages fetch count page acc).1 =
      acc ++ ((fetch_pages fetch count page acc).2.flatMap fun p => (fetch p).games) := by
  induction page, acc using fetch_pages.induct fetch count with
  | case1 page acc h np hnp =>
      rw [fetch_pages, dif_pos h]
      simp only [if_pos hnp]
      simp
  | case2 page acc h np hnp ih =>
      have hnpe : np = (fetch page).games := rfl
      rw [fetch_pages, dif_pos h]
      simp only [← hnpe, if_neg hnp, List.flatMap_cons]
      rw [ih]
      simp
  | case3 page acc h =>
      rw [fetch_pages, dif_neg h]
      simp

/-- Helper: each loop iteration before the last adds at least one game, so
the number of requested pages is at most `count - acc.length + 1`. -/
theorem fetch_pages_len_bound (fetch : Nat → GamesPage) (count page : Nat)
    (acc : List RawGame) :
    (fetch_pages fetch count page acc).2.length ≤ count - acc.length + 1 := by
  induction page, acc using fetch_pages.induct fetch count with
  | case1 page acc h np hnp =>
      rw [fetch_pages, dif_pos h]
      simp only [if_pos hnp]
      simp
  | case2 page acc h np hnp ih =>
      have hnpe : np = (fetch page).games := rfl
      rw [fetch_pages, dif_pos h]
      simp only [← hnpe, if_neg hnp, List.length_cons]
      have hlen : 0 < np.length := List.length_pos.mpr hnp
      have happ : (acc ++ np).length = acc.length + np.length := by simp
      omega
  | case3 page acc h =>
      rw [fetch_pages, dif_neg h]
      simp

/-- Helper: the loop stops only when the accumulated games reach the
reported count or a requested page came back empty. -/
theorem fetch_pages_stop (fetch : Nat → GamesPage) (count page : Nat)
    (acc : List RawGame) :
    count ≤ (fetch_pages fetch count page acc).1.length ∨
      ∃ p ∈ (fetch_pages fetch count page acc).2, (fetch p).games = [] := by
  induction page, acc using fetch_pages.induct fetch count with
  | case1 page acc h np hnp =>
      rw [fetch_pages, dif_pos h]
      simp only [if_pos hnp]
      exact Or.inr ⟨page, by simp, hnp⟩
  | case2 page acc h np hnp ih =>
      rw [fetch_pages, dif_pos h]
      simp only [if_neg hnp]
      rcases ih with h1 | ⟨p, hp, he⟩
      · exact Or.inl h1
      · exact Or.inr ⟨p, by simp [hp], he⟩
  | case3 page acc h =>
      rw [fetch_pages, dif_neg h]
      exact Or.inl (by simp; omega)

/-- C2 -- For every combination of the single-tag and multi-tag arguments to
`get_all_games`: a merged tag list containing both reserved sentinels, or a
sentinel together with any other tag (i.e. a sentinel occurs in a merged
list of length at least two), raises the caller-usage `ValueError`; a merged
list that is empty or exactly `["ALL"]` yields an unfiltered request (no
server-side tag filter, no post-filter); a merged list of exactly `["NULL"]`
yields no server-side tag filter but enables the untagged-only post-filter. -/
theorem validate_tags_sentinel_spec (tag : Option String) (tags : Option (List String)) :
    (("NULL" ∈ mergedTags tag tags ∧ "ALL" ∈ mergedTags tag tags) ∨
      ((∃ s ∈ mergedTags tag tags, s = "NULL" ∨ s = "ALL") ∧
        2 ≤ (mergedTags tag tags).length) →
      validate_tags tag tags =
        .error (.valueError "The special tags NULL and ALL must be requested alone.")) ∧
    (mergedTags tag tags = [] ∨ mergedTags tag tags = ["ALL"] →
      validate_tags tag tags = .ok (none, false)) ∧
    (mergedTags tag tags = ["NULL"] →
      validate_tags tag tags = .ok (none, true)) := by
  constructor
  · intro hmix
    have hsent : ("NULL" ∈ mergedTags tag tags ∨ "ALL" ∈ mergedTags tag tags) ∧
        ¬ (mergedTags tag tags = [] ∨ mergedTags tag tags = ["ALL"]) ∧
        mergedTags tag tags ≠ ["NULL"] := by
      rcases hmix with ⟨hn, ha⟩ | ⟨⟨s, hs, hval⟩, hlen⟩
      · refine ⟨Or.inl hn, ?_, ?_⟩
        · rintro (h | h)
          · rw [h] at hn; simp at hn
          · rw [h] at hn; simp at hn
        · intro h
          rw [h] at ha
          simp at ha
      · have hlen1 : ∀ x : String, mergedTags tag tags ≠ [x] := by
          intro x hx
          rw [hx] at hlen
          simp at hlen
        refine ⟨?_, ?_, hlen1 "NULL"⟩
        · rcases hval with h | h
          · exact Or.inl (h ▸ hs)
          · exact Or.inr (h ▸ hs)
        · rintro (h | h)
          · rw [h] at hs; simp at hs
          · exact hlen1 "ALL" h
    rcases hsent with ⟨hmem, hne, hnn⟩
    unfold validate_tags
    rw [if_neg hne, if_neg hnn, if_pos]
    rcases hmem with h | h
    · exact Or.inl (List.elem_eq_true_of_mem h)
    · exact Or.inr (List.elem_eq_true_of_mem h)
  · constructor
    · intro h
      unfold validate_tags
      rw [if_pos h]
    · intro h
      have hne : ¬ (mergedTags tag tags = [] ∨ mergedTags tag tags = ["ALL"]) := by
        rw [h]; simp
      unfold validate_tags
      rw [if_neg hne, if_pos h]

/-- Witness for C2: each of the three branches evaluated at a concrete
input. -/
theorem validate_tags_sentinel_spec_witness :
    validate_tags (some "NULL") (some ["scrim"]) =
      .error (.valueError "The special tags NULL and ALL must be requested alone.") ∧
    validate_tags none (some ["ALL"]) = .ok (none, false) ∧
    validate_tags none (some ["NULL"]) = .ok (none, true) :=
  ⟨(validate_tags_sentinel_spec (some "NULL") (some ["scrim"])).1
      (Or.inr ⟨⟨"NULL", by decide, Or.inl rfl⟩, by decide⟩),
   (validate_tags_sentinel_spec none (some ["ALL"])).2.1 (Or.inr (by decide)),
   (validate_tags_sentinel_spec none (some ["NULL"])).2.2 (by decide)⟩

/-- C3 -- Through `_clean_game`, a `Game` (all declared fields present) whose
tag list is empty comes out with tag list exactly `["NULL"]`, and a `Game`
with any tags comes out unchanged. -/
theorem clean_game_normalizes (g : RawGame) (h : hasAllKeys g = true) :
    (g.tags = some [] → clean_game g = .ok { g with tags := some ["NULL"] }) ∧
    (∀ t ts, g.tags = some (t :: ts) → clean_game g = .ok g) := by
  constructor
  · intro htags
    unfold clean_game
    rw [if_pos h, htags]
  · intro t ts htags
    unfold clean_game
    rw [if_pos h, htags]

/-- Witness for C3: a concrete fully-populated game with no tags is
normalized to `["NULL"]`, and one with a tag is unchanged. -/
theorem clean_game_normalizes_witness :
    clean_game
        { platformGameId := some "g1", name := some "n", status := some "s",
          createdAt := some "c", assets := some [], tags := some [],
          blockName := some "b", subBlockName := some "sb",
          teamTriCodes := some [] } =
      .ok { platformGameId := some "g1", name := some "n", status := some "s",
            createdAt := some "c", assets := some [], tags := some ["NULL"],
            blockName := some "b", subBlockName := some "sb",
            teamTriCodes := some [] } ∧
    clean_game
        { platformGameId := some "g2", name := some "n", status := some "s",
          createdAt := some "c", assets := some [], tags := some ["scrim"],
          blockName := some "b", subBlockName := some "sb",
          teamTriCodes := some [] } =
      .ok { platformGameId := some "g2", name := some "n", status := some "s",
            createdAt := some "c", assets := some [], tags := some ["scrim"],
            blockName := some "b", subBlockName := some "sb",
            teamTriCodes := some [] } :=
  ⟨(clean_game_normalizes _ (by decide)).1 rfl,
   (clean_game_normalizes _ (by decide)).2 "scrim" [] rfl⟩

/-- C4 -- A 401 on a GET with `allow_retry` triggers exactly one forced
re-login and exactly one retry of the same call with `allow_retry := false`
(so the whole call makes exactly two GET attempts and one re-login); if the
retried attempt also receives a 401, the call fails with the fatal HTTP 401
error and performs no further retry or re-login. -/
theorem do_api_call_401_retry_once (resp : Nat → Nat × Body) (service : String)
    (ensure_keys : List String) (h : (resp 0).1 = 401) :
    (do_api_call_get resp service ensure_keys true 0).relogins = 1 ∧
    (do_api_call_get resp service ensure_keys true 0).attempts = 2 ∧
    (do_api_call_get resp service ensure_keys true 0).result =
      (do_api_call_get resp service ensure_keys false 1).result ∧
    ((resp 1).1 = 401 →
      (do_api_call_get resp service ensure_keys true 0).result =
        .error (.httpError 401)) := by
  have hstep : do_api_call_get resp service ensure_keys true 0 =
      { result := (do_api_call_get resp service ensure_keys false 1).result,
        relogins := (do_api_call_get resp service ensure_keys false 1).relogins + 1,
        attempts := (do_api_call_get resp service ensure_keys false 1).attempts + 1 } := by
    rw [do_api_call_get, if_pos ⟨h, rfl⟩]
  refine ⟨?_, ?_, ?_, ?_⟩
  · rw [hstep]
    simp [(do_api_call_get_noRetry resp service ensure_keys 1).1]
  · rw [hstep]
    simp [(do_api_call_get_noRetry resp service ensure_keys 1).2]
  · rw [hstep]
  · intro h1
    rw [hstep]
    show (do_api_call_get resp service ensure_keys false 1).result = _
    rw [do_api_call_get, if_neg (by simp), if_neg (by simp [h1]),
      if_pos (by rw [h1]; norm_num)]
    simp [h1]

/-- Witness for C4: a transport that answers 401 to every attempt makes the
call trigger one re-login, two attempts, and the fatal 401 error. -/
theorem do_api_call_401_retry_once_witness :
    (do_api_call_get (fun _ => (401, [])) "api/v1/games" [] true 0).relogins = 1 ∧
    (do_api_call_get (fun _ => (401, [])) "api/v1/games" [] true 0).attempts = 2 ∧
    (do_api_call_get (fun _ => (401, [])) "api/v1/games" [] true 0).result =
      .error (.httpError 401) :=
  have h := do_api_call_401_retry_once (fun _ => (401, [])) "api/v1/games" [] rfl
  ⟨h.1, h.2.1, h.2.2.2 rfl⟩

/-- C7 -- For every call through the executor with a non-empty
`ensure_keys` set and a successful (< 400) response: the decoded body is
returned unchanged when it contains every required key, and the call fails
with `BayesUnexpectedResponseException` carrying the service name and the
raw decoded body when any required key is missing.  Stated for a GET attempt
(any retry mode) and for a POST. -/
theorem do_api_call_required_keys (resp : Nat → Nat × Body) (service : String)
    (ensure_keys : List String) (retry : Bool) (i : Nat)
    (_hne : ensure_keys ≠ []) (hok : (resp i).1 < 400) :
    ((∀ k ∈ ensure_keys, (resp i).2.hasKey k = true) →
      (do_api_call_get resp service ensure_keys retry i).result = .ok (resp i).2) ∧
    ((∃ k ∈ ensure_keys, (resp i).2.hasKey k = false) →
      (do_api_call_get resp service ensure_keys retry i).result =
        .error (.unexpectedResponse service (resp i).2)) ∧
    ((∀ k ∈ ensure_keys, (resp i).2.hasKey k = true) →
      do_api_call_post (resp i) service ensure_keys = .ok (resp i).2) ∧
    ((∃ k ∈ ensure_keys, (resp i).2.hasKey k = false) →
      do_api_call_post (resp i) service ensure_keys =
        .error (.unexpectedResponse service (resp i).2)) := by
  have h429 : ¬ ((resp i).1 = 429) := by omega
  have h400 : ¬ (400 ≤ (resp i).1) := by omega
  have hshape := do_api_call_get_success_shape resp service ensure_keys retry i hok
  refine ⟨?_, ?_, ?_, ?_⟩
  · intro hall
    rw [hshape, if_pos (List.all_eq_true.mpr hall)]
  · rintro ⟨k, hk, hmiss⟩
    have hnall : ¬ (ensure_keys.all (fun k => (resp i).2.hasKey k) = true) := by
      intro hall
      rw [List.all_eq_true] at hall
      have := hall k hk
      rw [hmiss] at this
      exact Bool.false_ne_true this
    rw [hshape, if_neg hnall]
  · intro hall
    unfold do_api_call_post
    rw [if_neg h429, if_neg h400, if_pos (List.all_eq_true.mpr hall)]
  · rintro ⟨k, hk, hmiss⟩
    have hnall : ¬ (ensure_keys.all (fun k => (resp i).2.hasKey k) = true) := by
      intro hall
      rw [List.all_eq_true] at hall
      have := hall k hk
      rw [hmiss] at this
      exact Bool.false_ne_true this
    unfold do_api_call_post
    rw [if_neg h429, if_neg h400, if_neg hnall]

/-- Witness for C7: a 200 response containing the required key is returned
unchanged; one missing it fails with `UnexpectedResponse` naming the
endpoint and carrying the body. -/
theorem do_api_call_required_keys_witness :
    (do_api_call_get (fun _ => (200, [("url", JVal.str "u")])) "api/v1/games" ["url"] true 0).result =
      .ok [("url", JVal.str "u")] ∧
    (do_api_call_get (fun _ => (200, [("other", JVal.null)])) "api/v1/games" ["url"] true 0).result =
      .error (.unexpectedResponse "api/v1/games" [("other", JVal.null)]) :=
  ⟨(do_api_call_required_keys (fun _ => (200, [("url", JVal.str "u")])) "api/v1/games"
      ["url"] true 0 (by decide) (by decide)).1 (by decide),
   (do_api_call_required_keys (fun _ => (200, [("other", JVal.null)])) "api/v1/games"
      ["url"] true 0 (by decide) (by decide)).2.1 ⟨"url", by decide, by decide⟩⟩

/-- C1 (counterexample) -- With a first response reporting `count = 99999`
(the sentinel bound) and no games, then page 1 returning one game and page 2
returning an empty page, `get_all_games` issues three requests whose page
parameters are `none`, `1`, `2` — not `2, 3, …` as claimed — and three
exceeds the claimed bound `⌈count / pageSize⌉ + 1 = 2`. -/
theorem get_all_games_pagination_counterexample :
    ((get_all_games_model { count := 99999, games := [] } onePageFetch none false).2.map
        GamesQuery.page = [none, some 1, some 2]) ∧
    (get_all_games_model { count := 99999, games := [] } onePageFetch none false).2.length = 3 ∧
    ¬ ((get_all_games_model { count := 99999, games := [] } onePageFetch none false).2.length ≤
        (99999 + INFINITY - 1) / INFINITY + 1) := by
  have h2 : fetch_pages onePageFetch 99999 2 [sampleGame] = ([sampleGame] ++ [], [2]) := by
    rw [fetch_pages]
    norm_num [onePageFetch]
  have h1 : fetch_pages onePageFetch 99999 1 [] = ([sampleGame], [1, 2]) := by
    rw [fetch_pages]
    norm_num [onePageFetch, h2]
  refine ⟨?_, ?_, ?_⟩ <;>
    simp [get_all_games_model, h1, INFINITY]

/-- C1 (amended) -- For every sequence of page responses, `get_all_games`
issues the first request with the page parameter omitted and page size
`INFINITY`; every issued request carries that same page size and the same
tag filter; when the reported count is below the sentinel bound exactly one
request is issued; the subsequent requests, when any, carry the consecutive
page numbers 1, 2, 3, …; when the reported count meets the bound the loop
stops exactly when the accumulated games reach the reported count or a
requested page comes back empty; and the total number of requests is at
most `count + 2` (the claimed `⌈count / pageSize⌉ + 1` bound does not hold
for adversarial page responses, and the loop pages start at 1, not 2). -/
theorem get_all_games_pagination_amended (first : GamesPage)
    (fetch : Nat → GamesPage) (tags : Option (List String)) (onl : Bool) :
    (get_all_games_model first fetch tags onl).2.head? =
      some { page := none, size := INFINITY, tags := tags } ∧
    (∀ q ∈ (get_all_games_model first fetch tags onl).2,
      q.size = INFINITY ∧ q.tags = tags) ∧
    (first.count < INFINITY →
      (get_all_games_model first fetch tags onl).2.length = 1) ∧
    ((get_all_games_model first fetch tags onl).2.map GamesQuery.page =
      none ::
        (List.range' 1 ((get_all_games_model first fetch tags onl).2.length - 1)).map some) ∧
    (INFINITY ≤ first.count →
      first.count ≤ (fetch_pages fetch first.count 1 first.games).1.length ∨
        ∃ p ∈ (fetch_pages fetch first.count 1 first.games).2, (fetch p).games = []) ∧
    (get_all_games_model first fetch tags onl).2.length ≤ first.count + 2 := by
  unfold get_all_games_model
  by_cases hc : INFINITY ≤ first.count
  · simp only [if_pos hc]
    obtain ⟨n, hn⟩ : ∃ n, (fetch_pages fetch first.count 1 first.games).2 = List.range' 1 n :=
      ⟨_, fetch_pages_range fetch first.count 1 first.games⟩
    have hbound := fetch_pages_len_bound fetch first.count 1 first.games
    rw [hn] at hbound
    refine ⟨rfl, ?_, ?_, ?_, ?_, ?_⟩
    · intro q hq
      rcases List.mem_cons.mp hq with rfl | hq
      · exact ⟨rfl, rfl⟩
      · rcases List.mem_map.mp hq with ⟨p, -, rfl⟩
        exact ⟨rfl, rfl⟩
    · intro hlt
      exact absurd hc (by omega)
    · rw [hn]
      simp [List.length_range']
    · intro _
      exact fetch_pages_stop fetch first.count 1 first.games
    · rw [hn]
      simp only [List.length_cons, List.length_map, List.length_range']
      simp only [List.length_range'] at hbound
      omega
  · simp only [if_neg hc]
    refine ⟨rfl, ?_, ?_, ?_, ?_, ?_⟩
    · intro q hq
      rcases List.mem_cons.mp hq with rfl | hq
      · exact ⟨rfl, rfl⟩
      · simp at hq
    · intro _
      rfl
    · rfl
    · intro hcc
      exact absurd hcc hc
    · simp

/-- Witness for C1 (amended): a first response with count 0 issues exactly
the single unfiltered query with the page parameter omitted. -/
theorem get_all_games_pagination_amended_witness :
    (get_all_games_model { count := 0, games := [] } onePageFetch none false).2.length = 1 ∧
    (get_all_games_model { count := 0, games := [] } onePageFetch none false).2.head? =
      some { page := none, size := INFINITY, tags := none } :=
  have h := get_all_games_pagination_amended { count := 0, games := [] } onePageFetch none false
  ⟨h.2.2.1 (by decide), h.1⟩

/-- Helper: a game accepted by `_clean_game` has every declared field. -/
theorem clean_game_ok_keys (g g' : RawGame) (h : clean_game g = .ok g') :
    hasAllKeys g' = true := by
  unfold clean_game at h
  by_cases hk : hasAllKeys g = true
  · rw [if_pos hk] at h
    split at h
    · cases h
      simp_all [hasAllKeys]
    · cases h
      exact hk
  · rw [if_neg hk] at h
    cases h

/-- Helper: every game in a successful result of the `get_all_games`
filter/normalize comprehension has every declared field. -/
theorem games_postprocess_ok_keys (onl : Bool) :
    ∀ gs res, games_postprocess onl gs = .ok res → ∀ g ∈ res, hasAllKeys g = true := by
  intro gs
  induction gs with
  | nil =>
      intro res h g hg
      simp only [games_postprocess] at h
      cases h
      simp at hg
  | cons a as ih =>
      intro res h g hg
      simp only [games_postprocess] at h
      rcases hta : a.tags with _ | ts
      · rw [hta] at h
        simp at h
      · rw [hta] at h
        simp only [] at h
        by_cases hcond : ts ≠ [] ∧ onl = true
        · rw [if_pos hcond] at h
          exact ih res h g hg
        · rw [if_neg hcond] at h
          rcases hclean : clean_game a with e | c
          · rw [hclean] at h
            simp at h
          · rw [hclean] at h
            rcases hrest : games_postprocess onl as with e | rest
            · rw [hrest] at h
              simp at h
            · rw [hrest] at h
              simp only [] at h
              cases h
              rcases List.mem_cons.mp hg with rfl | hg
              · exact clean_game_ok_keys a g hclean
              · exact ih rest hrest g hg

/-- C9 (counterexample) -- A games-listing response containing a game with a
non-empty tag list but a missing `name` field does not make `get_all_games`
fail when the untagged-only post-filter is active: the game is excluded by
the filter before `_clean_game` ever checks its fields, and the operation
succeeds, contradicting the claim that a response missing a declared field
always fails with `UnexpectedResponse`. -/
theorem game_fields_counterexample :
    hasAllKeys taggedPartialGame = false ∧
    get_all_games_model { count := 1, games := [taggedPartialGame] }
        (fun _ => { count := 0, games := [] }) none true =
      (.ok [], [{ page := none, size := INFINITY, tags := none }]) := by
  constructor
  · decide
  · rfl

/-- C9 (amended) -- Every `Game` a successful `get_game` or `get_all_games`
returns has all declared fields present.  A decoded game missing a declared
field fails `_clean_game` with `UnexpectedResponse` (service `'game'`,
carrying the payload); in `get_all_games` this applies to the games that
reach `_clean_game`: a game missing specifically the `tags` field fails
earlier, with a plain `KeyError` from the filter expression, and a game with
a non-empty tag list is skipped entirely (not validated) when the
untagged-only post-filter is active. -/
theorem game_fields_amended :
    (∀ resp rpgid g, get_game_model resp rpgid = .ok g → hasAllKeys g = true) ∧
    (∀ onl gs res, games_postprocess onl gs = .ok res →
      ∀ g ∈ res, hasAllKeys g = true) ∧
    (∀ g, hasAllKeys g = false →
      clean_game g = .error (.unexpectedResponseGame "game" g)) ∧
    (∀ onl gs g, g.tags = none →
      games_postprocess onl (g :: gs) = .error (.keyError "tags")) ∧
    (∀ gs g t ts, g.tags = some (t :: ts) →
      games_postprocess true (g :: gs) = games_postprocess true gs) := by
  refine ⟨?_, games_postprocess_ok_keys, ?_, ?_, ?_⟩
  · intro resp rpgid g h
    rcases resp with st | g0
    · simp only [get_game_model] at h
      by_cases h404 : st = 404
      · rw [if_pos h404] at h
        cases h
      · rw [if_neg h404] at h
        cases h
    · exact clean_game_ok_keys g0 g h
  · intro g h
    unfold clean_game
    rw [if_neg (by rw [h]; exact Bool.false_ne_true)]
  · intro onl gs g htags
    simp only [games_postprocess]
    rw [htags]
  · intro gs g t ts htags
    simp only [games_postprocess]
    rw [htags]
    simp

/-- Witness for C9 (amended): concrete instances of each part — a complete
game passes and keeps all fields, a field-less game fails `_clean_game` with
the `'game'` `UnexpectedResponse`, a game without the `tags` key fails the
comprehension with a `KeyError`, and a tagged game is skipped under the
untagged-only filter. -/
theorem game_fields_amended_witness :
    hasAllKeys { sampleGame with tags := some ["NULL"] } = true ∧
    clean_game { } = .error (.unexpectedResponseGame "game" { }) ∧
    games_postprocess false [{ }] = .error (.keyError "tags") ∧
    games_postprocess true [taggedPartialGame] = games_postprocess true [] :=
  ⟨game_fields_amended.1 (.ok sampleGame) "id" { sampleGame with tags := some ["NULL"] } (by rfl),
   game_fields_amended.2.2.1 { } (by decide),
   game_fields_amended.2.2.2.1 false [] { } (by decide),
   game_fields_amended.2.2.2.2 [] taggedPartialGame "T" [] (by decide)⟩

/-- C5 (counterexample) -- In the synchronous client, with the access token
present and expired: a refresh reporting the server-side validation failure
(HTTP 500) propagates as an error — no full re-login is performed — and,
with no refresh token present, a refresh exchange is still issued (sending
a null refresh token) instead of the claimed full login. -/
theorem ensure_login_refresh_counterexample :
    ensure_login_sync
        { loginResp := .ok { accessToken := "A", refreshToken := "R", expiresIn := 100 },
          refreshResp := .error 500 } 10
        { access_token := some "a", refresh_token := some "r", expires := 0 } false =
      .error (.httpError 500) ∧
    ensure_login_sync
        { loginResp := .ok { accessToken := "A", refreshToken := "R", expiresIn := 100 },
          refreshResp := .ok ("na", 50) } 10
        { access_token := some "a", refresh_token := none, expires := 0 } false =
      .ok ({ access_token := some "na", refresh_token := none, expires := 60 },
           [.refresh none]) :=
  ⟨rfl, rfl⟩

/-- C5 (amended) -- When the access token is present but expired and
ensure-login runs without the force flag, a refresh exchange is performed —
regardless of whether a refresh token is present (the session's refresh
token, possibly null, is sent; there is no full-login branch for a missing
refresh token) — and on success the access token and expiry (and, in the
asynchronous client, the refresh token) are replaced.  Only the
asynchronous client falls back to a full re-login when the refresh reports
the server-side validation failure (500); in the synchronous client every
refresh error, 500 included, propagates. -/
theorem ensure_login_expired_amended (o : SyncAuthOracle) (ao : AsyncAuthOracle)
    (now : Int) (s : SessionState) (a : String) (fs : SaveFile) (fuel : Nat)
    (hacc : s.access_token = some a) (hexp : s.expires ≤ now) :
    (∀ na e, o.refreshResp = .ok (na, e) →
      ensure_login_sync o now s false =
        .ok ({ s with access_token := some na, expires := now + e },
             [.refresh s.refresh_token])) ∧
    (∀ st, o.refreshResp = .error st →
      ensure_login_sync o now s false = .error (.httpError st)) ∧
    (∀ t, ao.refreshResp = .ok t →
      ensure_login_async ao now fs (fuel + 1) s false =
        some (.ok ({ s with
                     access_token := some t.accessToken,
                     refresh_token := some t.refreshToken,
                     expires := now + t.expiresIn },
                   some (some { accessToken := t.accessToken,
                                refreshToken := some t.refreshToken,
                                expiresIn := now + t.expiresIn }),
                   [.refresh s.refresh_token,
                    .save { accessToken := t.accessToken,
                            refreshToken := some t.refreshToken,
                            expiresIn := now + t.expiresIn }]))) ∧
    (∀ t, ao.refreshResp = .error 500 → ao.loginResp = .ok t →
      ensure_login_async ao now fs (fuel + 2) s false =
        some (.ok ({ access_token := some t.accessToken,
                     refresh_token := some t.refreshToken,
                     expires := now + t.expiresIn },
                   some (some { accessToken := t.accessToken,
                                refreshToken := some t.refreshToken,
                                expiresIn := now + t.expiresIn }),
                   [.refresh s.refresh_token, .login,
                    .save { accessToken := t.accessToken,
                            refreshToken := some t.refreshToken,
                            expiresIn := now + t.expiresIn }]))) := by
  have hne : ¬ (false = true ∨ s.access_token = none) := by simp [hacc]
  refine ⟨?_, ?_, ?_, ?_⟩
  · intro na e hr
    unfold ensure_login_sync
    rw [if_neg hne, if_pos hexp, hr]
  · intro st hr
    unfold ensure_login_sync
    rw [if_neg hne, if_pos hexp, hr]
  · intro t hr
    simp only [ensure_login_async]
    rw [if_neg (by simp), if_neg (by simp [hacc]), if_pos hexp, hr]
  · intro t hr hl
    simp only [ensure_login_async]
    rw [if_neg (by simp), if_neg (by simp [hacc]), if_pos hexp, hr, hl]
    simp

/-- Witness for C5 (amended): concrete expired sessions — a successful sync
refresh replaces the access token and expiry, and an async refresh 500
falls back to a full re-login whose result is saved. -/
theorem ensure_login_expired_amended_witness :
    ensure_login_sync
        { loginResp := .error 400, refreshResp := .ok ("na", 50) } 10
        { access_token := some "a", refresh_token := some "r", expires := 0 } false =
      .ok ({ access_token := some "na", refresh_token := some "r", expires := 60 },
           [.refresh (some "r")]) ∧
    ensure_login_async
        { loginResp := .ok { accessToken := "A", refreshToken := "R", expiresIn := 100 },
          refreshResp := .error 500 } 10 none 2
        { access_token := some "a", refresh_token := some "r", expires := 0 } false =
      some (.ok ({ access_token := some "A", refresh_token := some "R", expires := 110 },
                 some (some { accessToken := "A", refreshToken := some "R", expiresIn := 110 }),
                 [.refresh (some "r"), .login,
                  .save { accessToken := "A", refreshToken := some "R", expiresIn := 110 }])) :=
  have h := ensure_login_expired_amended
    { loginResp := .error 400, refreshResp := .ok ("na", 50) }
    { loginResp := .ok { accessToken := "A", refreshToken := "R", expiresIn := 100 },
      refreshResp := .error 500 }
    10 { access_token := some "a", refresh_token := some "r", expires := 0 }
    "a" none 0 rfl (by decide)
  ⟨h.1 "na" 50 rfl, h.2.2.2 { accessToken := "A", refreshToken := "R", expiresIn := 100 } rfl rfl⟩

/-- Helper: with no in-memory access token and a decodable save file whose
session is expired, the asynchronous `_ensure_login` re-invokes itself with
`force_relogin=False` on equivalent state, so no recursion depth suffices. -/
theorem ensure_login_async_expired_file_stuck (o : AsyncAuthOracle) (now : Int)
    (d : SavedSession) (hexp : d.expiresIn ≤ now) :
    ∀ fuel s, s.access_token = none →
      ensure_login_async o now (some (some d)) fuel s false = none := by
  intro fuel
  induction fuel with
  | zero => intro s _; rfl
  | succ n ih =>
      intro s hs
      simp only [ensure_login_async]
      rw [if_neg (by simp), if_pos hs]
      rw [if_pos hexp]
      exact ih _ hs

/-- C6 -- Code-bug evidence for the save-file handling of the asynchronous
client.  With no in-memory access token: a missing save file does lead to a
fresh full login whose result is persisted (as claimed); but a decodable
save file holding an expired session makes `_ensure_login` recurse with
`force_relogin=False` forever instead of performing the claimed fresh full
login — the login oracle would succeed, yet no depth of recursion returns —
and a present-but-undecodable file propagates the JSON decode error instead
of being treated as `NO_TOKEN`. -/
theorem ensure_login_async_save_file_bug :
    (ensure_login_async
        { loginResp := .ok { accessToken := "A", refreshToken := "R", expiresIn := 100 },
          refreshResp := .ok { accessToken := "A", refreshToken := "R", expiresIn := 100 } }
        10 none 2 { access_token := none, refresh_token := none, expires := 0 } false =
      some (.ok ({ access_token := some "A", refresh_token := some "R", expires := 110 },
                 some (some { accessToken := "A", refreshToken := some "R", expiresIn := 110 }),
                 [.login, .save { accessToken := "A", refreshToken := some "R", expiresIn := 110 }]))) ∧
    (∀ fuel, ensure_login_async
        { loginResp := .ok { accessToken := "A", refreshToken := "R", expiresIn := 100 },
          refreshResp := .ok { accessToken := "A", refreshToken := "R", expiresIn := 100 } }
        10 (some (some { accessToken := "old", refreshToken := some "r", expiresIn := 0 }))
        fuel { access_token := none, refresh_token := none, expires := 0 } false = none) ∧
    (ensure_login_async
        { loginResp := .ok { accessToken := "A", refreshToken := "R", expiresIn := 100 },
          refreshResp := .ok { accessToken := "A", refreshToken := "R", expiresIn := 100 } }
        10 (some none) 5 { access_token := none, refresh_token := none, expires := 0 } false =
      some (.error .jsonDecodeError)) := by
  refine ⟨rfl, ?_, rfl⟩
  intro fuel
  exact ensure_login_async_expired_file_stuck _ 10
    { accessToken := "old", refreshToken := some "r", expiresIn := 0 } (by decide) fuel _ rfl

/-- Helper: a successful `dict['url']` lookup implies the `'url'` key-presence
check passes. -/
theorem body_hasKey_of_lookup (b : Body) (k : String) (v : JVal)
    (h : Body.lookup b k = some v) : b.hasKey k = true := by
  unfold Body.lookup at h
  rcases hf : b.find? (fun kv => kv.1 == k) with _ | kv
  · rw [hf] at h
    cases h
  · have hmem := List.mem_of_find?_eq_some hf
    have hpred := List.find?_some hf
    have hk : kv.1 = k := by simpa using hpred
    unfold Body.hasKey
    apply List.elem_eq_true_of_mem
    rw [← hk]
    exact List.mem_map_of_mem Prod.fst hmem

/-- C8 -- `get_asset` fetches the Game first; when the requested asset kind
is not in the game's declared asset list it fails with the domain
`BadRequest` error naming both the game id and the kind, and no
download-URL request (nor any plain fetch) is issued; otherwise it requests
the short-lived download URL and performs a second, unauthenticated plain
fetch of the `'url'` value — not through the authenticated call executor —
whose raw body bytes are the result. -/
theorem get_asset_spec (o : AssetOracle) (rpgid asset : String)
    (game : RawGame) (assets : List String)
    (hg : get_game_model o.gameResp rpgid = .ok game)
    (ha : game.assets = some assets) :
    (asset ∉ assets →
      get_asset_model o rpgid asset =
        (.error (.badRequest
            ("Invalid asset type for game with ID " ++ rpgid ++ ": " ++ asset)),
         [.apiGame rpgid])) ∧
    (∀ url, asset ∈ assets → o.downloadResp.1 < 400 →
      o.downloadResp.2.lookup "url" = some url →
      get_asset_model o rpgid asset =
        (.ok (o.fetchBody url),
         [.apiGame rpgid, .apiDownload rpgid asset, .plainGet url])) := by
  constructor
  · intro hmem
    unfold get_asset_model
    rw [hg]
    simp only []
    rw [ha]
    simp only []
    rw [if_neg hmem]
  · intro url hmem hst hurl
    unfold get_asset_model
    rw [hg]
    simp only []
    rw [ha]
    simp only []
    rw [if_pos hmem, if_neg (by omega), if_neg (by omega),
      if_pos (body_hasKey_of_lookup _ _ _ hurl), hurl]

/-- Witness for C8: with the concrete oracle, requesting a kind the game
does not offer fails with the named `BadRequest` after one request, and
requesting the offered kind returns the fetched bytes after the game,
download-URL and plain-URL requests. -/
theorem get_asset_spec_witness :
    get_asset_model assetOracle "rpg1" "GAMH_DETAILS" =
      (.error (.badRequest "Invalid asset type for game with ID rpg1: GAMH_DETAILS"),
       [.apiGame "rpg1"]) ∧
    get_asset_model assetOracle "rpg1" "ROFL_REPLAY" =
      (.ok [82, 79, 70, 76],
       [.apiGame "rpg1", .apiDownload "rpg1" "ROFL_REPLAY",
        .plainGet (JVal.str "https://signed.example/replay")]) :=
  have h1 := get_asset_spec assetOracle "rpg1" "GAMH_DETAILS"
    { sampleGame with tags := some ["t"] } ["ROFL_REPLAY"] rfl rfl
  have h2 := get_asset_spec assetOracle "rpg1" "ROFL_REPLAY"
    { sampleGame with tags := some ["t"] } ["ROFL_REPLAY"] rfl rfl
  ⟨h1.1 (by decide),
   h2.2 (JVal.str "https://signed.example/replay") (by decide) (by decide) rfl⟩

/-- C10 -- `get_all_games` never mutates the caller-supplied tags
collection: the merged filter list is built inside a fresh object allocated
by `list(tags)`, the single-tag convenience argument is appended to that
fresh object only, and whether the validation returns a filter or raises,
every previously allocated list object — the caller's included — holds the
same contents afterwards. -/
theorem validate_tags_no_mutation (h : TagHeap) (nextId : Nat)
    (tag : Option String) (tagsRef : Option Nat) (i : Nat) (hi : i < nextId) :
    (validate_tags_heap h nextId tag tagsRef).1 i = h i := by
  have hne : i ≠ nextId := Nat.ne_of_lt hi
  unfold validate_tags_heap
  split <;> split <;> dsimp only <;> split_ifs <;> simp_all [TagHeap.write, hne]

/-- Witness for C10: a concrete heap where object 0 is the caller's list
`["x"]`; after validation (here raising, since `NULL` is appended to it)
the caller's object still holds `["x"]`. -/
theorem validate_tags_no_mutation_witness :
    (validate_tags_heap (fun _ => ["x"]) 1 (some "NULL") (some 0)).1 0 = ["x"] :=
  validate_tags_no_mutation (fun _ => ["x"]) 1 (some "NULL") (some 0) 0 (by decide)

end Bayes
